import Mathlib

/-!
Verification development for the Pava interpreter (pava.py): a line-oriented
scripting-language interpreter with a regex-priority lexer, a recursive-descent
precedence-climbing parser, a tagged value model (Int, String) and a
tree-walking evaluator.  Every definition below is a shallow embedding of the
corresponding Python construct; Python exceptions are modelled by the Err
enumeration and Except, the mutable token cursor by explicit list passing, the
mutable variable dict by an association list, and the recursion of the parser
and evaluator by an explicit fuel argument (structural on Nat so that concrete
runs compute inside the kernel; the fuel bounds are chosen so that the
out-of-fuel case is unreachable on the inputs considered).
-/

set_option autoImplicit false

namespace Pava

/-- Python exception kinds raised (or raisable) by pava.py.  typeErr never
occurs in the code but is included because the specification names TypeError;
attributeErr models the AttributeError raised when a dunder method accesses
the name-mangled private slot of an operand of the other class; indexErr
models list.pop / indexing on a too-short list; keyErr models dict lookup of
a missing key; outOfFuel is the embedding's artificial fuel exhaustion,
unreachable for the fuel bounds used. -/
inductive Err where
  | valueErr
  | synErr
  | nameErr
  | typeErr
  | attributeErr
  | indexErr
  | keyErr
  | outOfFuel
deriving DecidableEq

/-- The five token kinds emitted by the lexer (WHITESPACE and COMMENT matches
are consumed but never emitted, see tokenize). -/
inductive TokKind where
  | number
  | string
  | identifier
  | operator
  | parenthesis
deriving DecidableEq

/-- A token is a pair (type, lexeme), as in pava.py. -/
structure Token where
  kind : TokKind
  lexeme : String
deriving DecidableEq

/-- Node kinds of ASTNode: the five token-type names (parse_factor's
catch-all branch turns any token into a leaf node carrying its token-type
name) plus ASSIGNMENT and FUNCTION_CALL. -/
inductive NodeKind where
  | number
  | string
  | identifier
  | operator
  | assignment
  | functionCall
  | parenthesis
deriving DecidableEq

/-- ASTNode(type, value, children) from pava.py. -/
inductive ASTNode where
  | mk (kind : NodeKind) (value : String) (children : List ASTNode)

/-- Runtime values: the tagged union of the Int and String classes.  The
Python Int wraps an unbounded int, String wraps its text content (quotes
already stripped). -/
inductive Value where
  | intV (n : Int)
  | strV (s : String)
deriving DecidableEq

/-- The variables dict of run_pava_code: an association list keyed by the
variable name, updated in place. -/
abbrev Env := List (String × Value)

instance {ε α : Type} [DecidableEq ε] [DecidableEq α] : DecidableEq (Except ε α) := fun a b =>
  match a, b with
  | .ok x, .ok y =>
    match decEq x y with
    | isTrue h => isTrue (h ▸ rfl)
    | isFalse h => isFalse (fun hh => h (Except.ok.inj hh))
  | .ok _, .error _ => isFalse (fun hh => Except.noConfusion hh)
  | .error _, .ok _ => isFalse (fun hh => Except.noConfusion hh)
  | .error x, .error y =>
    match decEq x y with
    | isTrue h => isTrue (h ▸ rfl)
    | isFalse h => isFalse (fun hh => h (Except.error.inj hh))

/-- The decimal digits, i.e. the regex class \d restricted to ASCII as it
applies to the source lines of pava programs. -/
def isDig (c : Char) : Bool :=
  c = '0' || c = '1' || c = '2' || c = '3' || c = '4' ||
  c = '5' || c = '6' || c = '7' || c = '8' || c = '9'

/-- Decimal value of a digit character (the base-10 reading done by int()). -/
def digitVal (c : Char) : Nat :=
  if c = '0' then 0 else if c = '1' then 1 else if c = '2' then 2
  else if c = '3' then 3 else if c = '4' then 4 else if c = '5' then 5
  else if c = '6' then 6 else if c = '7' then 7 else if c = '8' then 8 else 9

/-- First character of the IDENTIFIER pattern [a-zA-Z_]\w*. -/
def isWordStart (c : Char) : Bool := c.isAlpha || c = '_'

/-- Continuation character of the IDENTIFIER pattern (\w). -/
def isWordChar (c : Char) : Bool := c.isAlpha || isDig c || c = '_'

/-- Python str.isspace / regex \s character class. -/
def pyIsSpace (c : Char) : Bool :=
  c = ' ' || c = '\t' || c = '\n' || c = '\r' || c = '\x0b' || c = '\x0c'

/-- tokenize(code) from pava.py: at each cursor position the patterns
NUMBER, STRING, IDENTIFIER, OPERATOR, PARENTHESIS, WHITESPACE, COMMENT are
tried in this fixed order and the first match wins; WHITESPACE and COMMENT
matches are skipped without emitting a token; if no pattern matches the
lexer raises ValueError (Unexpected character).  The first characters of the
seven patterns are disjoint, so the if-chain below realises the priority
order exactly.  Each step consumes at least one character, hence fuel equal
to the input length never runs out. -/
def tokenizeFuel : Nat → List Char → Except Err (List Token)
  | _, [] => .ok []
  | 0, _ :: _ => .error .outOfFuel
  | f + 1, c :: cs =>
    if isDig c then
      (tokenizeFuel f (cs.dropWhile isDig)).map
        (fun ts => Token.mk .number (String.mk (c :: cs.takeWhile isDig)) :: ts)
    else if c = '"' then
      match cs.dropWhile (fun d => d != '"') with
      | _ :: rest =>
        (tokenizeFuel f rest).map
          (fun ts =>
            Token.mk .string (String.mk (c :: cs.takeWhile (fun d => d != '"') ++ ['"'])) :: ts)
      | [] => .error .valueErr
    else if c = '\'' then
      match cs.dropWhile (fun d => d != '\'') with
      | _ :: rest =>
        (tokenizeFuel f rest).map
          (fun ts =>
            Token.mk .string (String.mk (c :: cs.takeWhile (fun d => d != '\'') ++ ['\''])) :: ts)
      | [] => .error .valueErr
    else if isWordStart c then
      (tokenizeFuel f (cs.dropWhile isWordChar)).map
        (fun ts => Token.mk .identifier (String.mk (c :: cs.takeWhile isWordChar)) :: ts)
    else if c = '+' || c = '-' || c = '*' || c = '/' || c = '=' then
      (tokenizeFuel f cs).map (fun ts => Token.mk .operator (String.mk [c]) :: ts)
    else if c = '(' || c = ')' then
      (tokenizeFuel f cs).map (fun ts => Token.mk .parenthesis (String.mk [c]) :: ts)
    else if pyIsSpace c then
      tokenizeFuel f (cs.dropWhile pyIsSpace)
    else if c = '#' then
      tokenizeFuel f (cs.dropWhile (fun d => d != '\n'))
    else
      .error .valueErr

/-- tokenize(code): wrapper supplying sufficient fuel. -/
def tokenize (code : String) : Except Err (List Token) :=
  tokenizeFuel code.data.length code.data

/-- SUPPORTED_TYPES keys. -/
def SUPPORTED_TYPES : List String := ["String", "Int"]

/-- SUPPORTED_FUNCTIONS keys. -/
def SUPPORTED_FUNCTIONS : List String := ["print"]

/-- SUPPORTED_OPERATORS keys: note that only + and - have entries. -/
def SUPPORTED_OPERATORS : List String := ["+", "-"]

/-- The keys of the TOKEN_TYPES regex table, in priority order. -/
def TOKEN_TYPE_NAMES : List String :=
  ["NUMBER", "STRING", "IDENTIFIER", "OPERATOR", "PARENTHESIS", "WHITESPACE", "COMMENT"]

/-- The TOKEN_TYPES key naming a token kind. -/
def tokKindName : TokKind → String
  | .number => "NUMBER"
  | .string => "STRING"
  | .identifier => "IDENTIFIER"
  | .operator => "OPERATOR"
  | .parenthesis => "PARENTHESIS"

/-- The AST node kind parse_factor's catch-all branch builds from a token
kind (ASTNode(name, token[1]) where name is the token-type name). -/
def tokNodeKind : TokKind → NodeKind
  | .number => .number
  | .string => .string
  | .identifier => .identifier
  | .operator => .operator
  | .parenthesis => .parenthesis

/-- int(s) as applied by the Int class to a lexeme: defined (with the value
given by the base-10 reading) exactly when s is a nonempty digit string;
otherwise Python raises ValueError.  (Signs and surrounding whitespace never
occur in the lexemes the interpreter passes to int.) -/
def pyIntOfDigits (cs : List Char) : Nat :=
  cs.foldl (fun a c => 10 * a + digitVal c) 0

/-- int(s) for the string argument domain reachable in pava.py. -/
def pyIntConv (s : String) : Except Err Int :=
  if s.data ≠ [] ∧ s.data.all isDig then .ok (Int.ofNat (pyIntOfDigits s.data))
  else .error .valueErr

/-- Int.__init__(value, passed): when passed is false, re.match(r'\D+', value)
succeeds exactly when value starts with a non-digit, raising ValueError;
then int(value) is applied (which itself raises ValueError on any remaining
non-digit, e.g. for a lexeme such as 1a that passes the first check). -/
def Int_init (value : String) (passed : Bool) : Except Err Value :=
  if !passed &&
      (match value.data with
       | [] => false
       | c :: _ => !isDig c) then
    .error .valueErr
  else
    (pyIntConv value).map Value.intV

/-- String.__init__(value, passed): strips one matching pair of leading and
trailing quote characters; value.startswith/endswith on the first/last
character (false on the empty string, both true on a single quote
character, exactly as in Python); otherwise keeps value as-is when passed,
else raises ValueError. -/
def String_init (value : String) (passed : Bool) : Except Err Value :=
  if (value.data.head? = some '"' ∧ value.data.getLast? = some '"')
      ∨ (value.data.head? = some '\'' ∧ value.data.getLast? = some '\'') then
    .ok (.strV (String.mk ((value.data.drop 1).dropLast)))
  else if passed then
    .ok (.strV value)
  else
    .error .valueErr

/-- The content stored by String.__init__ when it is reached with
passed=True (as in the returns of String.__add__ and String.__sub__): one
matching pair of leading/trailing quote characters is stripped when
present, otherwise the value is kept unchanged. -/
def strInitContent (value : String) : String :=
  if (value.data.head? = some '"' ∧ value.data.getLast? = some '"')
      ∨ (value.data.head? = some '\'' ∧ value.data.getLast? = some '\'') then
    String.mk ((value.data.drop 1).dropLast)
  else value

/-- str.replace(c, empty, 1): removes the first occurrence of c, if any. -/
def pyReplaceFirst : List Char → Char → List Char
  | [], _ => []
  | x :: xs, c => if x = c then xs else x :: pyReplaceFirst xs c

/-- The loop body of String.__sub__: for char in other.__value the field
self.__value is reassigned to self.__value.replace(char, empty, 1); the
first component of the result is the content of the new String object
returned (built from self.__value after the loop), the second component is
the content the left operand itself holds after the call (the loop mutates
self in place). -/
def subGo : List Char → List Char → List Char × List Char
  | s, [] => (s, s)
  | s, c :: rest => subGo (pyReplaceFirst s c) rest

/-- String.__sub__ : (content of the returned String, content stored in the
left operand after the call).  The return value passes through
String(self.__value, passed=True), whose constructor strips one matching
pair of surrounding quotes when the removal result happens to be
quote-delimited; the left operand itself keeps the raw loop result. -/
def String_sub (self other : String) : String × String :=
  (strInitContent (String.mk (subGo self.data other.data).1),
   String.mk (subGo self.data other.data).2)

/-- String.__add__ : concatenation, returned through
String(..., passed=True), whose constructor strips one matching pair of
surrounding quotes when the concatenation happens to be quote-delimited. -/
def String_add (self other : String) : String :=
  strInitContent (String.mk (self.data ++ other.data))

/-- type(a) == type(b) on the two value classes. -/
def sameVariant : Value → Value → Bool
  | .intV _, .intV _ => true
  | .strV _, .strV _ => true
  | _, _ => false

/-- Application of a SUPPORTED_OPERATORS entry (the lambda x, y: x + y or
x - y) to two runtime values.  Same-variant pairs dispatch to the dunder
methods of Int and String.  A cross-variant pair raises AttributeError: the
dunder method evaluates other.__value, which name-mangles to the private
slot of its own class (for example other._Int__value inside Int.__add__),
and the other class's instances do not carry that slot.  The final branch
(an operator string other than + and -) is unreachable because evaluate_ast
guards the application with ast.value in operators. -/
def applyOp (op : String) (l r : Value) : Except Err Value :=
  match l, r with
  | .intV a, .intV b =>
    if op = "+" then .ok (.intV (a + b))
    else if op = "-" then .ok (.intV (a - b))
    else .error .valueErr
  | .strV a, .strV b =>
    if op = "+" then .ok (.strV (String_add a b))
    else if op = "-" then .ok (.strV (String_sub a b).1)
    else .error .valueErr
  | _, _ => .error .attributeErr

/-- Little-endian decimal digit characters of n (fuel-structural so that it
computes; fuel at least n suffices since n / 10 decreases). -/
def natDecAux : Nat → Nat → List Char
  | 0, _ => []
  | f + 1, n => if n = 0 then [] else Nat.digitChar (n % 10) :: natDecAux f (n / 10)

/-- str(n) for a nonnegative integer n. -/
def natDec (n : Nat) : String :=
  if n = 0 then "0" else String.mk (natDecAux n n).reverse

/-- str(v) on a runtime value: Int renders as its decimal representation,
String as its unquoted content. -/
def strValue : Value → String
  | .intV i => if i < 0 then String.mk ('-' :: (natDec i.natAbs).data) else natDec i.toNat
  | .strV s => s

/-- Control points of the recursive-descent parser: the bodies of
parse_expression, parse_term and parse_factor, the two while loops inside
the first two (carrying the accumulated left node), and the argument
collection loop of the function-call branch of parse (carrying the function
name and the arguments parsed so far). -/
inductive PMode where
  | expr
  | exprLoop (node : ASTNode)
  | term
  | termLoop (node : ASTNode)
  | factor
  | callArgs (name : String) (acc : List ASTNode)

/-- The recursive-descent parser of pava.py with the mutable token list made
an explicit input/output and the call stack bounded by fuel (structural on
Nat so concrete parses compute in the kernel; every recursive call consumes
fuel and the wrapper supplies more fuel than the deepest possible chain of
calls, so outOfFuel is unreachable from parseFull).  Faithful details:
tokens.pop(0) on an exhausted list raises IndexError; the missing-')' check
in the parenthesis branch raises ValueError; the missing-'=' check of a
typed declaration formats tokens[0] into its message before raising, hence
raises IndexError instead when no token remains; the catch-all branch
accepts every token whose type name is a TOKEN_TYPES key other than
WHITESPACE and COMMENT (which is every token the lexer emits), so the final
SyntaxError branch of parse_factor is dead code. -/
def parseRun : Nat → PMode → List Token → Except Err (ASTNode × List Token)
  | 0, _, _ => .error .outOfFuel
  | f + 1, .expr, ts => do
    let p ← parseRun f .term ts
    parseRun f (.exprLoop p.1) p.2
  | f + 1, .exprLoop node, ts =>
    match ts with
    | [] => .ok (node, [])
    | t :: rest =>
      if t.lexeme = "+" ∨ t.lexeme = "-" then do
        let p ← parseRun f .term rest
        parseRun f (.exprLoop (ASTNode.mk .operator t.lexeme [node, p.1])) p.2
      else .ok (node, t :: rest)
  | f + 1, .term, ts => do
    let p ← parseRun f .factor ts
    parseRun f (.termLoop p.1) p.2
  | f + 1, .termLoop node, ts =>
    match ts with
    | [] => .ok (node, [])
    | t :: rest =>
      if t.lexeme = "*" ∨ t.lexeme = "/" then do
        let p ← parseRun f .factor rest
        parseRun f (.termLoop (ASTNode.mk .operator t.lexeme [node, p.1])) p.2
      else .ok (node, t :: rest)
  | f + 1, .factor, ts =>
    match ts with
    | [] => .error .indexErr
    | t :: rest =>
      if t.kind = .parenthesis ∧ t.lexeme = "(" then do
        let p ← parseRun f .expr rest
        match p.2 with
        | [] => .error .indexErr
        | u :: rest2 => if u.lexeme ≠ ")" then .error .valueErr else .ok (p.1, rest2)
      else if t.kind = .identifier ∧ t.lexeme ∈ SUPPORTED_TYPES then
        match rest with
        | [] => .error .indexErr
        | v :: rest2 =>
          match rest2 with
          | [] => .error .indexErr
          | e :: rest3 =>
            if e.lexeme ≠ "=" then
              match rest3 with
              | [] => .error .indexErr
              | _ :: _ => .error .synErr
            else do
              let p ← parseRun f .expr rest3
              .ok (ASTNode.mk .assignment v.lexeme [p.1], p.2)
      else if TOKEN_TYPE_NAMES.contains (tokKindName t.kind)
          && tokKindName t.kind != "WHITESPACE" && tokKindName t.kind != "COMMENT" then
        .ok (ASTNode.mk (tokNodeKind t.kind) t.lexeme [], rest)
      else
        .error .synErr
  | f + 1, .callArgs name acc, ts =>
    match ts with
    | [] => .error .synErr
    | t :: rest =>
      if t.kind = .parenthesis ∧ t.lexeme = ")" then
        .ok (ASTNode.mk .functionCall name acc, rest)
      else do
        let p ← parseRun f .expr (t :: rest)
        parseRun f (.callArgs name (acc ++ [p.1])) p.2

/-- Fuel bound for a parse of ts: the parser's call depth is at most a small
multiple of the token count. -/
def parseFuel (ts : List Token) : Nat := 4 * ts.length + 4

/-- parse(tokens) including the statement-level dispatch, returning also the
tokens left unconsumed (pava.py leaves them in the caller's list and they
are silently ignored). -/
def parseFull (ts : List Token) : Except Err (ASTNode × List Token) :=
  match ts with
  | t0 :: t1 :: rest =>
    if t0.kind = .identifier ∧ t1.kind = .parenthesis ∧ t1.lexeme = "(" then
      parseRun (parseFuel ts) (.callArgs t0.lexeme []) rest
    else if rest ≠ [] ∧ t0.kind = .identifier ∧ t1.lexeme = "=" then
      (parseRun (parseFuel ts) .expr rest).map
        (fun p => (ASTNode.mk .assignment t0.lexeme [p.1], p.2))
    else
      parseRun (parseFuel ts) .expr (t0 :: t1 :: rest)
  | other => parseRun (parseFuel other) .expr other

/-- parse(tokens) as used by run_pava_code: the produced AST. -/
def parse (ts : List Token) : Except Err ASTNode :=
  (parseFull ts).map Prod.fst

/-- variables lookup (dict access with the insertion-ordered assoc list). -/
def lookupVar : Env → String → Option Value
  | [], _ => none
  | (k, w) :: rest, n => if k = n then some w else lookupVar rest n

/-- variables[n] = w : in-place update of an existing key, else append. -/
def updateEnv : Env → String → Value → Env
  | [], n, w => [(n, w)]
  | (k, u) :: rest, n, w => if k = n then (k, w) :: rest else (k, u) :: updateEnv rest n w

/-- evaluate_ast(ast, variables, operators) with the mutated variables dict
threaded through explicitly.  NUMBER and STRING nodes call the Int and
String constructors with passed=True on the lexeme; IDENTIFIER looks up the
dict and raises NameError when unbound; OPERATOR applies the dispatch entry
only when ast.value is a SUPPORTED_OPERATORS key, evaluating the left child
then the right child (accessing a missing child raises IndexError);
ASSIGNMENT evaluates its child then commits the binding; every other node
kind (including * and / operator nodes, FUNCTION_CALL and PARENTHESIS
leaves) falls through to raise ValueError (Unknown AST node type).  The
fuel (structural, consumed once per nested evaluation) exceeds the height
of any AST considered, so outOfFuel is unreachable. -/
def evalAst : Nat → ASTNode → Env → Except Err (Value × Env)
  | 0, _, _ => .error .outOfFuel
  | f + 1, ASTNode.mk k v ch, env =>
    match k with
    | .number => (Int_init v true).map (fun w => (w, env))
    | .string => (String_init v true).map (fun w => (w, env))
    | .identifier =>
      match lookupVar env v with
      | none => .error .nameErr
      | some w => .ok (w, env)
    | .operator =>
      if v ∈ SUPPORTED_OPERATORS then
        match ch with
        | [] => .error .indexErr
        | l :: chrest => do
          let pl ← evalAst f l env
          match chrest with
          | [] => .error .indexErr
          | r :: _ => do
            let pr ← evalAst f r pl.2
            (applyOp v pl.1 pr.1).map (fun w => (w, pr.2))
      else .error .valueErr
    | .assignment =>
      match ch with
      | [] => .error .indexErr
      | e :: _ => do
        let p ← evalAst f e env
        .ok (p.1, updateEnv p.2 v p.1)
    | _ => .error .valueErr

/-- List-comprehension evaluation of call arguments, left to right, with the
variables dict threaded. -/
def evalArgs (f : Nat) : List ASTNode → Env → Except Err (List Value × Env)
  | [], env => .ok ([], env)
  | a :: rest, env => do
    let p ← evalAst f a env
    let q ← evalArgs f rest p.2
    .ok (p.1 :: q.1, q.2)

/-- The commit step of the bare-identifier statement branch of
run_pava_code: given the result of the re-evaluation, look the name up
again (dict indexing raises KeyError when absent, unreachable here because
the branch is guarded by a membership test) and rebind only when the
variants match; a variant mismatch is silently discarded. -/
def bareCommit (env : Env) (name : String) (res : Value) : Except Err Env :=
  match lookupVar env name with
  | none => .error .keyErr
  | some cur => .ok (if sameVariant res cur then updateEnv env name res else env)

/-- Evaluator fuel used by the statement dispatcher; far above the height of
any AST a source line of the sizes considered can produce. -/
def evalGas : Nat := 300

/-- The per-line statement dispatch of run_pava_code, after parsing:
ASSIGNMENT is evaluated for its effect on variables; FUNCTION_CALL checks
the function table (only print is defined; an unknown name raises
NameError) and evaluates the arguments left to right, the call itself being
an external output effect that does not touch variables; a bare IDENTIFIER
statement requires the name to be bound (else NameError), re-evaluates it
and commits the result back only on a variant match; every other AST kind
raises SyntaxError (Invalid top-level statement). -/
def runStmt (env : Env) (ast : ASTNode) : Except Err Env :=
  match ast with
  | ASTNode.mk .assignment _ _ => (evalAst evalGas ast env).map Prod.snd
  | ASTNode.mk .functionCall name args =>
    if name ∈ SUPPORTED_FUNCTIONS then
      (evalArgs evalGas args env).map Prod.snd
    else .error .nameErr
  | ASTNode.mk .identifier name _ =>
    if (lookupVar env name).isSome then do
      let p ← evalAst evalGas ast env
      bareCommit p.2 name p.1
    else .error .nameErr
  | _ => .error .synErr

/-- line.strip() with Python's whitespace set. -/
def pyStrip (s : String) : String :=
  String.mk (((s.data.dropWhile pyIsSpace).reverse.dropWhile pyIsSpace).reverse)

/-- Processing of one source line by run_pava_code: strip, skip empty and
comment lines, tokenize, parse, dispatch. -/
def runLine (env : Env) (line : String) : Except Err Env :=
  let l := pyStrip line
  if l.data = [] ∨ l.data.head? = some '#' then .ok env
  else do
    let ts ← tokenize l
    let ast ← parse ts
    runStmt env ast

/-- run_pava_code over a list of source lines, starting from the fresh empty
variables dict; the first raised error aborts the run. -/
def runProgram (lines : List String) : Except Err Env :=
  lines.foldlM runLine []

/-- Modelled from the spec (section 4.3, for comparison with String_sub /
subGo): multiset character removal: scan the right operand's characters
left-to-right; for each character, remove the first remaining occurrence of
that character from the left operand (List.erase removes the first
occurrence). -/
def multisetRemoval (a b : List Char) : List Char :=
  b.foldl (fun acc c => acc.erase c) a

/-! Helper lemmas. -/

theorem exBind_ok {ε α β : Type} (a : α) (f : α → Except ε β) :
    (Except.ok a : Except ε α) >>= f = f a := rfl

theorem exBind_error {ε α β : Type} (e : ε) (f : α → Except ε β) :
    (Except.error e : Except ε α) >>= f = Except.error e := rfl

theorem exMap_ok {ε α β : Type} (g : α → β) (a : α) :
    (Except.ok a : Except ε α).map g = Except.ok (g a) := rfl

theorem exMap_error {ε α β : Type} (g : α → β) (e : ε) :
    (Except.error e : Except ε α).map g = Except.error e := rfl

/-- Rebinding a variable to the value it already holds leaves the dict
unchanged. -/
theorem updateEnv_self (env : Env) (x : String) (w : Value)
    (h : lookupVar env x = some w) : updateEnv env x w = env := by
  induction env with
  | nil => simp [lookupVar] at h
  | cons p rest ih =>
    obtain ⟨k, u⟩ := p
    by_cases hk : k = x
    · subst hk
      simp [lookupVar] at h
      simp [updateEnv, h]
    · simp [lookupVar, hk] at h
      simp [updateEnv, hk, ih h]

/-- str.replace(c, empty, 1) is removal of the first occurrence. -/
theorem pyReplaceFirst_eq_erase (s : List Char) (c : Char) :
    pyReplaceFirst s c = s.erase c := by
  induction s with
  | nil => rfl
  | cons x xs ih =>
    by_cases hx : x = c
    · simp [pyReplaceFirst, hx, List.erase_cons]
    · simp [pyReplaceFirst, hx, List.erase_cons, ih]

/-- The mutation loop of String.__sub__ computes the multiset character
removal described by the spec, both in the returned String and in the
left operand's final content. -/
theorem subGo_eq (b s : List Char) :
    subGo s b = (multisetRemoval s b, multisetRemoval s b) := by
  induction b generalizing s with
  | nil => simp [subGo, multisetRemoval]
  | cons c rest ih =>
    simp [subGo, multisetRemoval, pyReplaceFirst_eq_erase, ih (s.erase c),
      List.foldl_cons]

/-- Basic facts about decimal digit characters. -/
theorem digit_facts (c : Char) (h : isDig c = true) :
    digitVal c < 10 ∧ Nat.digitChar (digitVal c) = c ∧ (digitVal c = 0 ↔ c = '0') := by
  simp only [isDig, Bool.or_eq_true, decide_eq_true_eq] at h
  rcases h with ((((((((h | h) | h) | h) | h) | h) | h) | h) | h) | h <;> subst h <;>
    exact ⟨by decide, by decide, by decide⟩

theorem pyIntOfDigits_eq_ofDigits_aux (cs : List Char) :
    ∀ acc : Nat, cs.foldl (fun a c => 10 * a + digitVal c) acc =
      Nat.ofDigits 10 ((cs.map digitVal).reverse) + acc * 10 ^ cs.length := by
  induction cs with
  | nil => intro acc; simp [Nat.ofDigits]
  | cons c rest ih =>
    intro acc
    simp only [List.foldl_cons, ih, List.map_cons, List.reverse_cons, List.length_cons]
    rw [Nat.ofDigits_append]
    simp [Nat.ofDigits_singleton]
    ring

/-- The left fold performed by int() on a digit string agrees with Mathlib's
little-endian Nat.ofDigits on the reversed digit list. -/
theorem pyIntOfDigits_eq_ofDigits (cs : List Char) :
    pyIntOfDigits cs = Nat.ofDigits 10 ((cs.map digitVal).reverse) := by
  simpa using pyIntOfDigits_eq_ofDigits_aux cs 0

/-- The fuel-structural digit renderer agrees with Mathlib's Nat.digits. -/
theorem natDecAux_eq (f : Nat) : ∀ n : Nat, n ≤ f →
    natDecAux f n = (Nat.digits 10 n).map Nat.digitChar := by
  induction f with
  | zero =>
    intro n hn
    interval_cases n
    simp [natDecAux]
  | succ f ih =>
    intro n hn
    by_cases h0 : n = 0
    · subst h0; simp [natDecAux]
    · have hpos : 0 < n := Nat.pos_of_ne_zero h0
      rw [natDecAux, if_neg h0, Nat.digits_def' (by norm_num : (1:Nat) < 10) hpos]
      simp only [List.map_cons]
      congr 1
      exact ih (n / 10) (by omega)

/-- A nonempty digit lexeme with no redundant leading zero is reproduced
exactly by constructing an Int value from it and rendering the value. -/
theorem numberLexeme_roundtrip (cs : List Char) (hne : cs ≠ [])
    (hdig : ∀ c ∈ cs, isDig c = true) (hz : cs.head? ≠ some '0' ∨ cs = ['0']) :
    (Int_init (String.mk cs) false).map strValue = .ok (String.mk cs) := by
  rcases hz with hz | hz
  swap
  · subst hz; decide
  obtain ⟨c, rest, rfl⟩ : ∃ c rest, cs = c :: rest := by
    cases cs with
    | nil => exact absurd rfl hne
    | cons a l => exact ⟨a, l, rfl⟩
  have hc : isDig c = true := hdig c (List.mem_cons_self c rest)
  have hc0 : c ≠ '0' := by
    intro hcc
    subst hcc
    simp at hz
  have hinit : Int_init (String.mk (c :: rest)) false =
      .ok (.intV (Int.ofNat (pyIntOfDigits (c :: rest)))) := by
    simp only [Int_init, String.mk]
    rw [if_neg (by simp [hc])]
    simp only [pyIntConv]
    rw [if_pos ⟨by simp, by simp only [List.all_eq_true]; intro x hx; exact hdig x hx⟩]
    rfl
  rw [hinit]
  simp only [Except.map]
  have hnonneg : ¬ (Int.ofNat (pyIntOfDigits (c :: rest)) < 0) := by
    simp
  simp only [strValue, if_neg hnonneg]
  have ht : (Int.ofNat (pyIntOfDigits (c :: rest))).toNat = pyIntOfDigits (c :: rest) := rfl
  rw [ht]
  set L : List Nat := ((c :: rest).map digitVal).reverse with hL
  have hval : pyIntOfDigits (c :: rest) = Nat.ofDigits 10 L :=
    pyIntOfDigits_eq_ofDigits (c :: rest)
  have hLne : L ≠ [] := by simp [hL]
  have hdigits : Nat.digits 10 (Nat.ofDigits 10 L) = L := by
    apply Nat.digits_ofDigits 10 (by norm_num) L
    · intro l hl
      rw [hL, List.mem_reverse, List.mem_map] at hl
      obtain ⟨d, hd, rfl⟩ := hl
      exact (digit_facts d (hdig d hd)).1
    · intro h
      have h1 : L.getLast? = some (digitVal c) := by
        rw [hL]
        simp only [List.map_cons, List.reverse_cons]
        exact List.getLast?_concat _
      rw [List.getLast?_eq_getLast L h] at h1
      have h2 : L.getLast h = digitVal c := Option.some.inj h1
      rw [h2]
      intro hzero
      exact hc0 ((digit_facts c hc).2.2.mp hzero)
  have hn0 : pyIntOfDigits (c :: rest) ≠ 0 := by
    intro hcon
    rw [hval] at hcon
    have hd0 := hdigits
    rw [hcon] at hd0
    simp at hd0
    exact hLne hd0
  simp only [natDec, if_neg hn0]
  congr 1
  rw [natDecAux_eq (pyIntOfDigits (c :: rest)) (pyIntOfDigits (c :: rest)) (le_refl _)]
  rw [hval, hdigits, hL]
  rw [List.map_reverse, List.reverse_reverse, List.map_map]
  have hid : (c :: rest).map (Nat.digitChar ∘ digitVal) = (c :: rest).map id := by
    apply List.map_congr_left
    intro a ha
    exact (digit_facts a (hdig a ha)).2.1
  rw [hid, List.map_id]

/-- A STRING lexeme (quote, body, quote) is reproduced exactly, minus the
quotes, by the String constructor. -/
theorem stringLexeme_roundtrip (body : List Char) :
    String_init (String.mk ('"' :: body ++ ['"'])) false = .ok (.strV (String.mk body)) := by
  simp only [String_init]
  rw [if_pos]
  · congr 1
    rw [show (({ data := '"' :: body ++ ['"'] } : String).data.drop 1) = body ++ ['"'] from rfl]
    simp [List.dropLast_concat]
  · left
    constructor
    · rfl
    · rw [show ('"' :: body ++ ['"'] : List Char) = ('"' :: body) ++ ['"'] from rfl]
      exact List.getLast?_concat _

/-- A single-quoted STRING lexeme is likewise reproduced exactly, minus the
quotes, by the String constructor. -/
theorem stringLexemeSingle_roundtrip (body : List Char) :
    String_init (String.mk ('\'' :: body ++ ['\''])) false = .ok (.strV (String.mk body)) := by
  simp only [String_init]
  rw [if_pos]
  · congr 1
    rw [show (({ data := '\'' :: body ++ ['\''] } : String).data.drop 1) = body ++ ['\''] from rfl]
    simp [List.dropLast_concat]
  · right
    constructor
    · rfl
    · rw [show ('\'' :: body ++ ['\''] : List Char) = ('\'' :: body) ++ ['\''] from rfl]
      exact List.getLast?_concat _

/-- String.__init__ reached with passed=True stores exactly strInitContent
of its argument (the quote-stripping pass the operator returns go
through). -/
theorem String_init_passed (value : String) :
    String_init value true = .ok (.strV (strInitContent value)) := by
  by_cases h : (value.data.head? = some '"' ∧ value.data.getLast? = some '"')
      ∨ (value.data.head? = some '\'' ∧ value.data.getLast? = some '\'')
  · simp [String_init, strInitContent, h]
  · simp [String_init, strInitContent, h]

/-- A single-identifier line parses to a bare IDENTIFIER leaf (when the
identifier is not a type name, in which case parse_factor would instead
start a typed declaration). -/
theorem parse_single_ident (x : String) (hx : ¬ x ∈ SUPPORTED_TYPES) :
    parse [Token.mk .identifier x] = .ok (ASTNode.mk .identifier x []) := by
  simp +decide [parse, parseFull, parseFuel, parseRun, hx, exBind_ok, exBind_error,
    exMap_ok, exMap_error]

/-! Claim theorems. -/

/-- C1, counterexample: running the line Int x = 2 + 3 * 4 does not bind x
to IntValue(14); it aborts with ValueError (the evaluator has no rule for
the * operator node), so the claim that the evaluation succeeds is false. -/
theorem c1_counterexample :
    runLine [] ("Int x = 2 + 3 * 4") = .error Err.valueErr := rfl

/-- C1 (amended): the line Int x = 2 + 3 * 4 lexes to the expected eight
tokens and parses into Assignment(x, 2 + (3 * 4)) — the parser does give *
a tighter binding than + — but evaluating the line fails with ValueError,
because SUPPORTED_OPERATORS contains only + and - and evaluate_ast treats
an OPERATOR node whose operator has no table entry as an unknown node kind;
x is never bound. -/
theorem c1_star_unsupported :
    tokenize ("Int x = 2 + 3 * 4") =
      .ok [Token.mk .identifier ("Int"), Token.mk .identifier ("x"),
           Token.mk .operator ("="), Token.mk .number ("2"),
           Token.mk .operator ("+"), Token.mk .number ("3"),
           Token.mk .operator ("*"), Token.mk .number ("4")]
    ∧ parse [Token.mk .identifier ("Int"), Token.mk .identifier ("x"),
           Token.mk .operator ("="), Token.mk .number ("2"),
           Token.mk .operator ("+"), Token.mk .number ("3"),
           Token.mk .operator ("*"), Token.mk .number ("4")] =
        .ok (ASTNode.mk .assignment ("x")
              [ASTNode.mk .operator ("+")
                [ASTNode.mk .number ("2") [],
                 ASTNode.mk .operator ("*")
                   [ASTNode.mk .number ("3") [], ASTNode.mk .number ("4") []]]])
    ∧ runLine [] ("Int x = 2 + 3 * 4") = .error Err.valueErr :=
  ⟨rfl, rfl, rfl⟩

/-- C2, counterexample: evaluating a - b on Strings does not leave the
stored content of a unchanged: after computing "hello" - "l" the left
operand's stored content is "helo", not "hello". -/
theorem c2_counterexample :
    (String_sub ("hello") ("l")).2 ≠ ("hello") := by decide

/-- C2 (amended): String subtraction is not frame-preserving on its left
operand: the for-loop in String.__sub__ reassigns self.__value, so after
a - b the left operand's stored content equals the raw multiset-removal
result (in particular after "hello" - "l" it holds "helo"), while the new
String returned carries that result passed through the quote-stripping
String constructor — so the returned content can even differ from the
operand's new stored content, as when the left content is a quote-delimited
three-character string: content "x" (with quotes) minus z stores content
"x" (with quotes) but returns content x. -/
theorem c2_sub_mutates_left :
    (∀ a b : String, (String_sub a b).2 = String.mk (multisetRemoval a.data b.data))
    ∧ (∀ a b : String, (String_sub a b).1 = strInitContent (String.mk (multisetRemoval a.data b.data)))
    ∧ (String_sub ("hello") ("l")).2 = ("helo")
    ∧ (String_sub ("\"x\"") ("z")).2 = ("\"x\"")
    ∧ (String_sub ("\"x\"") ("z")).1 = ("x") :=
  ⟨fun a b => by simp [String_sub, subGo_eq],
   fun a b => by simp [String_sub, subGo_eq],
   by decide, by decide, by decide⟩

/-- C3, counterexample: parser failures are not all SyntaxError, and some
are not failures at all: a missing closing parenthesis (tokens ( 2 3)
raises ValueError, and a line with trailing unconsumed tokens after a
complete assignment (x = 5 7) succeeds silently, binding x to 5 and
discarding the 7. -/
theorem c3_counterexample :
    parse [Token.mk .parenthesis ("("), Token.mk .number ("2"), Token.mk .number ("3")] =
      .error Err.valueErr
    ∧ runLine [] ("x = 5 7") = .ok [("x", Value.intV 5)] :=
  ⟨rfl, rfl⟩

/-- C3 (amended): of the four advertised parser failure conditions only the
typed declaration missing its = raises SyntaxError, and only when a token
follows the offending one; at end of input the error message's indexing
raises IndexError first.  A missing closing parenthesis raises ValueError
when some non-) token is present at the closing check, and IndexError when
the input ends before it (tokens.pop(0) on the empty list); trailing
unconsumed tokens after a complete statement are silently ignored (parse
succeeds and run_pava_code never sees them); and an unrecognized leading
token never raises in parse_factor — every token kind the lexer can emit
is accepted by the catch-all branch as a leaf node (shown here for a
leading close-parenthesis, which matches none of the grammar's factor
alternatives), leaving parse_factor's SyntaxError branch unreachable. -/
theorem c3_parser_error_kinds :
    parse [Token.mk .identifier ("Int"), Token.mk .identifier ("x"),
           Token.mk .number ("5"), Token.mk .number ("6")] = .error Err.synErr
    ∧ parse [Token.mk .identifier ("Int"), Token.mk .identifier ("x"),
           Token.mk .number ("5")] = .error Err.indexErr
    ∧ parse [Token.mk .parenthesis ("("), Token.mk .number ("2"),
           Token.mk .number ("3")] = .error Err.valueErr
    ∧ parse [Token.mk .parenthesis ("("), Token.mk .number ("2")] = .error Err.indexErr
    ∧ parseFull [Token.mk .identifier ("x"), Token.mk .operator ("="),
           Token.mk .number ("5"), Token.mk .number ("7")] =
        .ok (ASTNode.mk .assignment ("x") [ASTNode.mk .number ("5") []],
             [Token.mk .number ("7")])
    ∧ runLine [] ("x = 5 7") = .ok [("x", Value.intV 5)]
    ∧ (∀ (f : Nat) (rest : List Token),
        parseRun (f + 1) .factor (Token.mk .parenthesis (")") :: rest) =
          .ok (ASTNode.mk .parenthesis (")") [], rest)) :=
  ⟨rfl, rfl, rfl, rfl, rfl, rfl, fun _ _ => rfl⟩

/-- C4, counterexample: applying + to an Int and a String does not fail
with TypeError (it fails with AttributeError instead, because Int.__add__
reads other._Int__value, a slot a String instance does not have). -/
theorem c4_counterexample :
    applyOp ("+") (Value.intV 1) (Value.strV ("a")) ≠ .error Err.typeErr := by decide

/-- C4 (amended): a binary + or - applied to a cross-variant pair (Int with
String, in either order) always fails — no implicit coercion occurs — but
the error raised is AttributeError, not TypeError: the left operand's
dunder method dereferences the name-mangled private slot of its own class
on the other operand. -/
theorem c4_cross_variant_attribute_error (a : Int) (s : String) (op : String)
    (_hop : op = "+" ∨ op = "-") :
    applyOp op (.intV a) (.strV s) = .error .attributeErr
    ∧ applyOp op (.strV s) (.intV a) = .error .attributeErr :=
  ⟨rfl, rfl⟩

/-- C4, witness for the amended theorem at op = +, 1 and "x". -/
theorem c4_witness :
    applyOp ("+") (Value.intV 1) (Value.strV ("x")) = .error .attributeErr
    ∧ applyOp ("+") (Value.strV ("x")) (Value.intV 1) = .error .attributeErr :=
  c4_cross_variant_attribute_error 1 ("x") ("+") (Or.inl rfl)

/-- C5, counterexample: a function call with two comma-separated arguments
does not lex: TOKEN_TYPES has no pattern matching the comma, so tokenize
raises ValueError (Unexpected character) on print(1, 2). -/
theorem c5_counterexample :
    tokenize ("print(1, 2)") = .error Err.valueErr := rfl

/-- C5 (amended): comma-separated argument lists fail at lexing with
ValueError (the lexer has no comma pattern, despite the grammar's
functionCall production).  Argument expressions separated by whitespace
alone do lex and parse: print(1 2) and print(1 2 3) produce FUNCTION_CALL
nodes whose children are the argument expressions in call order. -/
theorem c5_call_arguments :
    tokenize ("print(1, 2)") = .error Err.valueErr
    ∧ tokenize ("print(1 2)") =
        .ok [Token.mk .identifier ("print"), Token.mk .parenthesis ("("),
             Token.mk .number ("1"), Token.mk .number ("2"), Token.mk .parenthesis (")")]
    ∧ parse [Token.mk .identifier ("print"), Token.mk .parenthesis ("("),
             Token.mk .number ("1"), Token.mk .number ("2"), Token.mk .parenthesis (")")] =
        .ok (ASTNode.mk .functionCall ("print")
              [ASTNode.mk .number ("1") [], ASTNode.mk .number ("2") []])
    ∧ parse [Token.mk .identifier ("print"), Token.mk .parenthesis ("("),
             Token.mk .number ("1"), Token.mk .number ("2"), Token.mk .number ("3"),
             Token.mk .parenthesis (")")] =
        .ok (ASTNode.mk .functionCall ("print")
              [ASTNode.mk .number ("1") [], ASTNode.mk .number ("2") [],
               ASTNode.mk .number ("3") []]) :=
  ⟨rfl, rfl, rfl, rfl⟩

/-- C6, counterexample: the bare-expression line 2 + 3 is not evaluated
without error: run_pava_code dispatches only ASSIGNMENT, FUNCTION_CALL and
IDENTIFIER trees and raises SyntaxError (Invalid top-level statement) for
the OPERATOR tree this line parses to. -/
theorem c6_counterexample :
    runLine [] ("2 + 3") = .error Err.synErr := rfl

/-- C6 (amended): a line starting with neither IDENTIFIER ( nor
IDENTIFIER = is indeed parsed as a bare expression (2 + 3 parses to the
expected OPERATOR tree), but whether it then executes depends on the tree
that parse produced: run_pava_code executes only ASSIGNMENT, FUNCTION_CALL
and IDENTIFIER trees.  A bare expression that parses to an OPERATOR or
literal leaf tree — such as a line consisting only of 2 + 3 — raises
SyntaxError without being evaluated, whatever the environment; bare
expressions that parse to an ASSIGNMENT (a typed declaration such as
Int x = 5, recognized inside factor) or to an IDENTIFIER (a lone variable
name, also when parenthesized as (y)) do execute successfully. -/
theorem c6_bare_expression :
    parse [Token.mk .number ("2"), Token.mk .operator ("+"), Token.mk .number ("3")] =
      .ok (ASTNode.mk .operator ("+")
            [ASTNode.mk .number ("2") [], ASTNode.mk .number ("3") []])
    ∧ (∀ env : Env, runLine env ("2 + 3") = .error Err.synErr)
    ∧ runLine [("y", Value.intV 7)] ("y") = .ok [("y", Value.intV 7)]
    ∧ runLine [] ("Int x = 5") = .ok [("x", Value.intV 5)]
    ∧ runLine [("y", Value.intV 7)] ("(y)") = .ok [("y", Value.intV 7)] :=
  ⟨rfl, fun _ => rfl, rfl, rfl, rfl⟩

/-- C7, counterexample: the valid Number lexeme 007 does not round-trip:
constructing an Int value from it and rendering the value yields 7. -/
theorem c7_counterexample :
    (Int_init ("007") false).map strValue ≠ .ok ("007") := by decide

/-- C7 (amended): the round-trip property holds for every String literal
token, double-quoted or single-quoted (the constructor strips exactly the
surrounding quotes), and for every Number lexeme with no redundant leading
zero (a nonempty digit string whose first digit is nonzero, or the single
digit 0); a Number lexeme with a leading zero, such as 007, renders back
without it, as the counterexample shows. -/
theorem c7_roundtrip :
    (∀ cs : List Char, cs ≠ [] → (∀ c ∈ cs, isDig c = true) →
        (cs.head? ≠ some '0' ∨ cs = ['0']) →
        (Int_init (String.mk cs) false).map strValue = .ok (String.mk cs))
    ∧ (∀ body : List Char,
        String_init (String.mk ('"' :: body ++ ['"'])) false = .ok (.strV (String.mk body)))
    ∧ (∀ body : List Char,
        String_init (String.mk ('\'' :: body ++ ['\''])) false = .ok (.strV (String.mk body))) :=
  ⟨numberLexeme_roundtrip, stringLexeme_roundtrip, stringLexemeSingle_roundtrip⟩

/-- C7, witness: the round-trip theorem applied to the Number lexeme 42,
the double-quoted String literal "ab" and a single-quoted literal holding
the single character c. -/
theorem c7_witness :
    (Int_init (String.mk ['4', '2']) false).map strValue = .ok (String.mk ['4', '2'])
    ∧ String_init (String.mk ('"' :: ['a', 'b'] ++ ['"'])) false =
        .ok (.strV (String.mk ['a', 'b']))
    ∧ String_init (String.mk ('\'' :: ['c'] ++ ['\''])) false =
        .ok (.strV (String.mk ['c'])) :=
  ⟨c7_roundtrip.1 ['4', '2'] (by decide) (by decide) (Or.inl (by decide)),
   c7_roundtrip.2.1 ['a', 'b'],
   c7_roundtrip.2.2 ['c']⟩

/-- C8, counterexample: String subtraction does not always return the bare
multiset-removal result: for a left operand whose content is the
three-character string "x" (with quotes, obtainable from the single-quoted
lexeme holding it) and a right operand z, the removal leaves the content
unchanged but the returned String passes through the quote-stripping
constructor and so carries content x, not "x". -/
theorem c8_counterexample :
    applyOp ("-") (.strV ("\"x\"")) (.strV ("z")) ≠ .ok (.strV ("\"x\""))
    ∧ applyOp ("-") (.strV ("\"x\"")) (.strV ("z")) = .ok (.strV ("x")) := by
  exact ⟨by decide, rfl⟩

/-- C8 (amended): String subtraction computes multiset character removal —
scanning the right operand's characters left-to-right and removing, for
each, the first remaining occurrence from the left operand — and returns
that result through the String constructor, which strips one matching pair
of surrounding quote characters when the removal result happens to be
quote-delimited; when it is not, the returned value is exactly the
multiset removal, and in particular "hello" - "l" yields
StringValue("helo"). -/
theorem c8_removal_then_ctor :
    (∀ a b : String,
        applyOp ("-") (.strV a) (.strV b) =
          .ok (.strV (strInitContent (String.mk (multisetRemoval a.data b.data)))))
    ∧ applyOp ("-") (.strV ("hello")) (.strV ("l")) = .ok (.strV ("helo"))
    ∧ applyOp ("-") (.strV ("\"x\"")) (.strV ("z")) = .ok (.strV ("x")) :=
  ⟨fun a b => by simp [applyOp, String_sub, subGo_eq], rfl, rfl⟩

/-- C9: the variant-mismatch discard law.  A line consisting of the bare
identifier x parses to an IDENTIFIER leaf (for x not a type name), and for
a bound x executing that statement re-evaluates x and completes without
error leaving the environment unchanged; the commit step applied to a
String-variant re-evaluation result while x is Int-bound leaves the stored
value untouched and raises nothing.  (In this interpreter the
re-evaluation of a bare identifier is a lookup, so it always returns the
stored value; the commit guard at lines 246-247 of pava.py is stated here
for an arbitrary evaluation result, which is how it would act on a
mismatching one.) -/
theorem c9_variant_mismatch_discard (env : Env) (x : String) (n : Int) (s : String)
    (hbound : lookupVar env x = some (.intV n)) (hx : ¬ x ∈ SUPPORTED_TYPES) :
    parse [Token.mk .identifier x] = .ok (ASTNode.mk .identifier x [])
    ∧ runStmt env (ASTNode.mk .identifier x []) = .ok env
    ∧ bareCommit env x (.strV s) = .ok env := by
  refine ⟨parse_single_ident x hx, ?_, ?_⟩
  · simp only [runStmt, hbound, Option.isSome_some, if_pos]
    simp only [evalGas, evalAst, hbound, exBind_ok, bareCommit, sameVariant, if_pos]
    simp [updateEnv_self env x (Value.intV n) hbound]
  · simp [bareCommit, hbound, sameVariant]

/-- C9, witness: the discard law applied to the environment binding x to
IntValue(5) and the String-variant result "a". -/
theorem c9_witness :
    parse [Token.mk .identifier ("x")] = .ok (ASTNode.mk .identifier ("x") [])
    ∧ runStmt [("x", Value.intV 5)] (ASTNode.mk .identifier ("x") []) =
        .ok [("x", Value.intV 5)]
    ∧ bareCommit [("x", Value.intV 5)] ("x") (.strV ("a")) = .ok [("x", Value.intV 5)] :=
  c9_variant_mismatch_discard [("x", Value.intV 5)] ("x") 5 ("a") (by decide) (by decide)

/-- C10: the type name of a typed declaration is never checked against the
value.  For any type name T in SUPPORTED_TYPES, parse_factor consumes
T name = and returns an ASSIGNMENT node that records only the variable
name and the parsed right-hand expression — the result is the same
whichever supported T was written — and running the line String x = 5
binds x to IntValue(5) with no error. -/
theorem c10_type_name_discarded (f : Nat) (T name : String) (rest : List Token)
    (hT : T ∈ SUPPORTED_TYPES) :
    parseRun (f + 1) .factor
        (Token.mk .identifier T :: Token.mk .identifier name ::
          Token.mk .operator ("=") :: rest) =
      (parseRun f .expr rest).map (fun p => (ASTNode.mk .assignment name [p.1], p.2))
    ∧ runLine [] ("String x = 5") = .ok [("x", Value.intV 5)] := by
  constructor
  · simp only [parseRun]
    simp +decide [hT]
    cases hp : parseRun f PMode.expr rest with
    | error e => simp [hp, exBind_error, exMap_error]
    | ok p => simp [hp, exBind_ok, exMap_ok]
  · rfl

/-- C10, witness: the declaration lemma applied to T = String at fuel 1
with an empty remainder, together with the concrete run. -/
theorem c10_witness :
    parseRun 1 .factor
        [Token.mk .identifier ("String"), Token.mk .identifier ("x"),
         Token.mk .operator ("=")] =
      (parseRun 0 .expr []).map (fun p => (ASTNode.mk .assignment ("x") [p.1], p.2))
    ∧ runLine [] ("String x = 5") = .ok [("x", Value.intV 5)] :=
  c10_type_name_discarded 0 ("String") ("x") [] (by decide)

end Pava
